import Mathlib

/-!
Shallow embedding of `src/ydns_py/__init__.py` (ydns-py): a dynamic-DNS
updater that issues HTTPS GET requests to per-domain update URLs over a
forced address family, classifies each response, and aggregates outcomes
into a process exit code.

The embedding models:
* `_ForcedAFHTTPSConnection.connect` — DNS resolution filtered to one
  address family and stream sockets, first-result socket connect, optional
  proxy tunnel, TLS negotiation, with an explicit socket-lifecycle state;
* `_update` — one update attempt: obtain an HTTP status (also from
  `urllib.error.HTTPError`) or a connection error, classify, and emit
  console messages;
* the record loop of `main` (lines 220-247) — per-record attempts,
  error flags, the no-URL warning, and the final exit code.

Console messages are modelled as a tagged type `Msg` with a `render`
function producing the exact strings of the source; stdout and stderr are
modelled as separate message lists.
-/

namespace YdnsPy

/-- Address families used by the updater (`socket.AF_INET` / `socket.AF_INET6`). -/
inductive AddressFamily where
  | AF_INET
  | AF_INET6
deriving DecidableEq, Repr

/-- Socket types relevant to resolution (`socket.SOCK_STREAM` vs others). -/
inductive SockType where
  | SOCK_STREAM
  | SOCK_DGRAM
deriving DecidableEq, Repr

/-- One entry of a resolver answer: the family/socktype/address tuple that
`socket.getaddrinfo` returns (proto and canonname omitted; the address is
opaque). -/
structure AddrInfo where
  family : AddressFamily
  socktype : SockType
  sa : String
deriving DecidableEq, Repr

/-- `socket.getaddrinfo(self.host, port, self._address_family, socket.SOCK_STREAM)`:
the system resolver's full answer set for the host (`table`), filtered to the
requested address family and to stream sockets. -/
def getaddrinfo (table : List AddrInfo) (family : AddressFamily) : List AddrInfo :=
  table.filter (fun ai => decide (ai.family = family ∧ ai.socktype = SockType.SOCK_STREAM))

/-- Faults that `connect` can raise (as exceptions in the source). -/
inductive ConnectFault where
  | resolutionFailed
  | socketError (detail : String)
  | tunnelError (detail : String)
  | tlsError (detail : String)
deriving DecidableEq, Repr

/-- Lifecycle of the raw socket created by `connect`. -/
inductive SockState where
  | notCreated
  | openSock
  | closedSock
deriving DecidableEq, Repr

/-- Environment of one `connect` call: the resolver's unfiltered answer for
the host, and which of the fallible steps fail in this call. -/
structure ConnectEnv where
  table : List AddrInfo
  connectFails : Bool
  tunnelHost : Bool
  tunnelFails : Bool
  tlsFails : Bool
deriving DecidableEq, Repr

/-- `_ForcedAFHTTPSConnection.connect` (source lines 70-90). Returns the
address actually used (or the fault raised) together with the final state of
the raw socket.

Step by step from the source:
* resolution via `getaddrinfo` filtered to `fam` and `SOCK_STREAM`; an empty
  answer raises `OSError` before any socket exists;
* a socket is created for the first result and `sock.connect(sa)` is tried;
  on any exception the source runs `sock.close()` and re-raises;
* with a proxy tunnel, `self.sock = sock` is assigned and `self._tunnel()`
  runs; `http.client`'s tunnel helper calls `self.close()` before raising on
  a failed CONNECT handshake, which closes the assigned socket;
* TLS wrapping via `self._context.wrap_socket`; on a failed TLS handshake
  `ssl.SSLSocket` closes the underlying descriptor before raising. -/
def ForcedAF.connect (fam : AddressFamily) (env : ConnectEnv) :
    Except ConnectFault AddrInfo × SockState :=
  match getaddrinfo env.table fam with
  | [] => (Except.error ConnectFault.resolutionFailed, SockState.notCreated)
  | ai :: _ =>
    if env.connectFails then
      (Except.error (ConnectFault.socketError ai.sa), SockState.closedSock)
    else if env.tunnelHost then
      if env.tunnelFails then
        (Except.error (ConnectFault.tunnelError "Tunnel connection failed"), SockState.closedSock)
      else if env.tlsFails then
        (Except.error (ConnectFault.tlsError "TLS handshake failed"), SockState.closedSock)
      else
        (Except.ok ai, SockState.openSock)
    else
      if env.tlsFails then
        (Except.error (ConnectFault.tlsError "TLS handshake failed"), SockState.closedSock)
      else
        (Except.ok ai, SockState.openSock)

/-- The `_Result` enum of the source. -/
inductive _Result where
  | OK
  | HTTP_ERROR
  | CONN_ERROR
deriving DecidableEq, Repr

/-- Console messages, tagged by which `print` of the source emits them. -/
inductive Msg where
  | success (domain label : String)
  | invalid404 (domain label : String)
  | rejected400 (domain label : String)
  | unexpectedStatus (domain label : String) (status : Nat)
  | connectionError (domain label : String) (detail : String)
  | noUpdateUrls (domain : String)
deriving DecidableEq, Repr

/-- The exact strings printed by the source for each message. -/
def Msg.render : Msg → String
  | Msg.success domain label => "Updated " ++ domain ++ " (" ++ label ++ ") successfully."
  | Msg.invalid404 domain label =>
      domain ++ " (" ++ label ++ "): update URL is invalid (404). Check your configuration."
  | Msg.rejected400 domain label =>
      domain ++ " (" ++ label ++ "): server rejected the request (400). You may not have a public "
        ++ label ++ " address."
  | Msg.unexpectedStatus domain label status =>
      domain ++ " (" ++ label ++ "): unexpected HTTP status " ++ toString status ++ "."
  | Msg.connectionError domain label detail =>
      domain ++ " (" ++ label ++ "): connection error: " ++ detail
  | Msg.noUpdateUrls domain =>
      "No update URLs configured for " ++ domain ++ ", updates not attempted"

/-- What `opener.open(req, timeout=TIMEOUT)` can do, as seen by `_update`:
return a response carrying a status, raise `urllib.error.HTTPError` carrying
a status code, or raise any other exception (connection-level faults). -/
inductive OpenResult where
  | response (status : Nat)
  | httpError (code : Nat)
  | otherError (detail : String)
deriving DecidableEq, Repr

/-- Result of one `_update` call: its `_Result` value plus the messages it
printed to stdout and stderr. -/
structure UpdateOutput where
  result : _Result
  stdout : List Msg
  stderr : List Msg
deriving DecidableEq, Repr

/-- The classification block of `_update` (source lines 140-159), applied once
a status has been obtained. -/
def classifyStatus (status : Nat) (domain label : String) (verbose : Bool) : UpdateOutput :=
  if 200 ≤ status ∧ status < 300 then
    { result := _Result.OK
      stdout := if verbose then [Msg.success domain label] else []
      stderr := [] }
  else if status = 404 then
    { result := _Result.HTTP_ERROR, stdout := [], stderr := [Msg.invalid404 domain label] }
  else if status = 400 then
    { result := _Result.HTTP_ERROR, stdout := [], stderr := [Msg.rejected400 domain label] }
  else
    { result := _Result.HTTP_ERROR, stdout := [], stderr := [Msg.unexpectedStatus domain label status] }

/-- `_update` (source lines 122-159): a response yields its status; an
`HTTPError` is caught first and its `code` becomes the status; any other
exception prints the connection-error message to stderr and returns
`CONN_ERROR`; an obtained status then goes through the classification block. -/
def update (openRes : OpenResult) (domain label : String) (verbose : Bool) : UpdateOutput :=
  match openRes with
  | OpenResult.response status => classifyStatus status domain label verbose
  | OpenResult.httpError code => classifyStatus code domain label verbose
  | OpenResult.otherError detail =>
      { result := _Result.CONN_ERROR
        stdout := []
        stderr := [Msg.connectionError domain label detail] }

/-- Human-readable text of a connect fault, as carried by the exception. -/
def faultText : ConnectFault → String
  | ConnectFault.resolutionFailed => "getaddrinfo returned no results"
  | ConnectFault.socketError detail => detail
  | ConnectFault.tunnelError detail => detail
  | ConnectFault.tlsError detail => detail

/-- How an attempt driven through the forced-AF connection surfaces in
`_update`: a fault raised by `connect` is a non-`HTTPError` exception, while a
completed connection lets the server's status (`status`) be read from the
response. -/
def openViaConnect (fam : AddressFamily) (env : ConnectEnv) (status : Nat) : OpenResult :=
  match (ForcedAF.connect fam env).1 with
  | Except.error f => OpenResult.otherError (faultText f)
  | Except.ok _ => OpenResult.response status

/-- Exit-code constants of the source. -/
def EX_UPDATE_FAILED : Nat := 4

/-- Exit-code constant for connection errors. -/
def EX_CONNECTION_ERROR : Nat := 5

/-- One `[[domains]]` entry as read by `main`: `entry.get("domain", ...)`,
`entry.get("update_url")`, `entry.get("update_url_v6")`. A missing key is
`none`. -/
structure Entry where
  domain : Option String
  update_url : Option String
  update_url_v6 : Option String
deriving DecidableEq, Repr

/-- Python truthiness of an optional string, as used by `if update_url:` —
`None` and the empty string are both falsy. -/
def truthy : Option String → Bool
  | none => false
  | some s => !s.isEmpty

/-- Per-attempt output of one record: the `_Result` values produced, the
console messages, and (instrumentation) the URLs attempted, in order. -/
structure AttemptOut where
  results : List _Result
  stdout : List Msg
  stderr : List Msg
  urls : List String
deriving DecidableEq, Repr

/-- `if update_url: result = _update(...)` for one URL field: nothing happens
for a falsy value; a truthy URL produces exactly one attempt through the
family's opener, modelled by `net : String → OpenResult`. -/
def attemptFor (net : String → OpenResult) (verbose : Bool) (domain label : String) :
    Option String → AttemptOut
  | none => { results := [], stdout := [], stderr := [], urls := [] }
  | some url =>
    if url.isEmpty then { results := [], stdout := [], stderr := [], urls := [] }
    else
      let out := update (net url) domain label verbose
      { results := [out.result], stdout := out.stdout, stderr := out.stderr, urls := [url] }

/-- The body of the record loop of `main` (source lines 220-242) for one
entry: the IPv4 attempt if `update_url` is truthy, then the IPv6 attempt if
`update_url_v6` is truthy, then the no-URL warning when both are falsy. -/
def processEntry (net : String → OpenResult) (verbose : Bool) (entry : Entry) : AttemptOut :=
  let domain := entry.domain.getD "<undefined>"
  let a4 := attemptFor net verbose domain "IPv4" entry.update_url
  let a6 := attemptFor net verbose domain "IPv6" entry.update_url_v6
  let warn :=
    if !truthy entry.update_url && !truthy entry.update_url_v6 then
      [Msg.noUpdateUrls domain]
    else []
  { results := a4.results ++ a6.results
    stdout := a4.stdout ++ a6.stdout
    stderr := a4.stderr ++ a6.stderr ++ warn
    urls := a4.urls ++ a6.urls }

/-- State threaded through the record loop of `main`: the two error flags,
plus the accumulated console output, attempt results and attempted URLs. -/
structure LoopState where
  any_http_error : Bool
  any_conn_error : Bool
  stdout : List Msg
  stderr : List Msg
  results : List _Result
  urls : List String
deriving DecidableEq, Repr

/-- The flag update after each attempt (source lines 225-228 and 233-236):
`if result == HTTP_ERROR: any_http_error = True elif result == CONN_ERROR:
any_conn_error = True`. -/
def applyResultFlags (st : LoopState) (r : _Result) : LoopState :=
  if r = _Result.HTTP_ERROR then { st with any_http_error := true }
  else if r = _Result.CONN_ERROR then { st with any_conn_error := true }
  else st

/-- One iteration of the record loop: run the entry's attempts, update the
flags from each attempt's result, and append the entry's output. -/
def stepEntry (net : String → OpenResult) (verbose : Bool) (st : LoopState) (entry : Entry) :
    LoopState :=
  let out := processEntry net verbose entry
  let st1 := out.results.foldl applyResultFlags st
  { st1 with
      stdout := st1.stdout ++ out.stdout
      stderr := st1.stderr ++ out.stderr
      results := st1.results ++ out.results
      urls := st1.urls ++ out.urls }

/-- Loop state before the first record: both flags false, nothing printed. -/
def initState : LoopState :=
  { any_http_error := false, any_conn_error := false
    stdout := [], stderr := [], results := [], urls := [] }

/-- The whole record loop of `main` over the `[[domains]]` entries. -/
def mainLoop (net : String → OpenResult) (verbose : Bool) (entries : List Entry) : LoopState :=
  entries.foldl (stepEntry net verbose) initState

/-- The exit logic after the loop (source lines 244-247): connection errors
exit with `EX_CONNECTION_ERROR`; else strict mode with an HTTP error exits
with `EX_UPDATE_FAILED`; else `main` returns and the process exits 0. -/
def mainExit (net : String → OpenResult) (verbose strict : Bool) (entries : List Entry) : Nat :=
  let st := mainLoop net verbose entries
  if st.any_conn_error then EX_CONNECTION_ERROR
  else if strict && st.any_http_error then EX_UPDATE_FAILED
  else 0

/-- The number of non-null URL fields across the records: the count the
spec's invariant speaks about (`update_url` or `update_url_v6` present,
whatever their value). -/
def countNonNullUrls (entries : List Entry) : Nat :=
  (entries.map (fun e =>
    (if e.update_url ≠ none then 1 else 0) + (if e.update_url_v6 ≠ none then 1 else 0))).sum

/-- The number of truthy (present and non-empty) URL fields across the
records: the count that actually drives the loop's attempts. -/
def countTruthyUrls (entries : List Entry) : Nat :=
  (entries.map (fun e =>
    (if truthy e.update_url then 1 else 0) + (if truthy e.update_url_v6 then 1 else 0))).sum

/-- The URLs one entry contributes, in attempt order: the truthy
`update_url` first, then the truthy `update_url_v6`. Defined without
reference to any network behaviour. -/
def entryUrls (e : Entry) : List String :=
  (match e.update_url with
   | none => []
   | some u => if u.isEmpty then [] else [u]) ++
  (match e.update_url_v6 with
   | none => []
   | some u => if u.isEmpty then [] else [u])

/-- The attempt results of a whole run, in order. -/
def runResults (net : String → OpenResult) (verbose : Bool) (entries : List Entry) :
    List _Result :=
  entries.flatMap (fun e => (processEntry net verbose e).results)

/-- The stdout of a whole run, in order. -/
def runStdout (net : String → OpenResult) (verbose : Bool) (entries : List Entry) : List Msg :=
  entries.flatMap (fun e => (processEntry net verbose e).stdout)

/-- The stderr of a whole run, in order. -/
def runStderr (net : String → OpenResult) (verbose : Bool) (entries : List Entry) : List Msg :=
  entries.flatMap (fun e => (processEntry net verbose e).stderr)

/-- The URLs attempted in a whole run, in order. -/
def runUrls (net : String → OpenResult) (verbose : Bool) (entries : List Entry) : List String :=
  entries.flatMap (fun e => (processEntry net verbose e).urls)

/-- The record list on which claim C2 fails: one record whose `update_url`
key is present but holds the empty string. -/
def cexEntries : List Entry :=
  [{ domain := some "example.ydns.eu", update_url := some "", update_url_v6 := none }]

/-- The resolver answer used by the C4 witness: only an IPv4 stream entry,
so an IPv6-forced connect finds nothing. -/
def envOnlyV4 : ConnectEnv :=
  { table := [{ family := AddressFamily.AF_INET, socktype := SockType.SOCK_STREAM
                sa := "93.184.216.34" }]
    connectFails := false, tunnelHost := false, tunnelFails := false, tlsFails := false }

/-- The connect environment of the C6 witness: resolution succeeds but the
raw socket connect fails. -/
def envConnectFail : ConnectEnv :=
  { table := [{ family := AddressFamily.AF_INET, socktype := SockType.SOCK_STREAM
                sa := "93.184.216.34" }]
    connectFails := true, tunnelHost := false, tunnelFails := false, tlsFails := false }

/-- The record list of the C8 witness: one record with one URL. -/
def entriesOneOk : List Entry :=
  [{ domain := some "d.ydns.eu", update_url := some "https://ydns.io/hosts/update/x"
     update_url_v6 := none }]

lemma flags_foldl (rs : List _Result) (st : LoopState) :
    rs.foldl applyResultFlags st =
      { st with
          any_http_error := st.any_http_error || decide (_Result.HTTP_ERROR ∈ rs)
          any_conn_error := st.any_conn_error || decide (_Result.CONN_ERROR ∈ rs) } := by
  induction rs generalizing st with
  | nil => simp
  | cons r rs ih =>
    cases r <;>
      simp [List.foldl_cons, ih, applyResultFlags, List.mem_cons, Bool.or_assoc, Bool.or_comm,
        Bool.or_left_comm]

lemma stepEntry_spec (net : String → OpenResult) (verbose : Bool) (st : LoopState)
    (entry : Entry) :
    stepEntry net verbose st entry =
      { any_http_error :=
          st.any_http_error || decide (_Result.HTTP_ERROR ∈ (processEntry net verbose entry).results)
        any_conn_error :=
          st.any_conn_error || decide (_Result.CONN_ERROR ∈ (processEntry net verbose entry).results)
        stdout := st.stdout ++ (processEntry net verbose entry).stdout
        stderr := st.stderr ++ (processEntry net verbose entry).stderr
        results := st.results ++ (processEntry net verbose entry).results
        urls := st.urls ++ (processEntry net verbose entry).urls } := by
  simp [stepEntry, flags_foldl]

lemma foldl_stepEntry_spec (net : String → OpenResult) (verbose : Bool) (entries : List Entry)
    (st : LoopState) :
    entries.foldl (stepEntry net verbose) st =
      { any_http_error := st.any_http_error || decide (_Result.HTTP_ERROR ∈ runResults net verbose entries)
        any_conn_error := st.any_conn_error || decide (_Result.CONN_ERROR ∈ runResults net verbose entries)
        stdout := st.stdout ++ runStdout net verbose entries
        stderr := st.stderr ++ runStderr net verbose entries
        results := st.results ++ runResults net verbose entries
        urls := st.urls ++ runUrls net verbose entries } := by
  induction entries generalizing st with
  | nil => simp [runResults, runStdout, runStderr, runUrls]
  | cons e es ih =>
    simp only [List.foldl_cons, ih, stepEntry_spec, runResults, runStdout, runStderr, runUrls,
      List.flatMap_cons, List.mem_append, List.append_assoc]
    congr 1 <;> simp [Bool.or_assoc]

lemma mainLoop_spec (net : String → OpenResult) (verbose : Bool) (entries : List Entry) :
    mainLoop net verbose entries =
      { any_http_error := decide (_Result.HTTP_ERROR ∈ runResults net verbose entries)
        any_conn_error := decide (_Result.CONN_ERROR ∈ runResults net verbose entries)
        stdout := runStdout net verbose entries
        stderr := runStderr net verbose entries
        results := runResults net verbose entries
        urls := runUrls net verbose entries } := by
  simp [mainLoop, foldl_stepEntry_spec, initState]

lemma classifyStatus_stdout_mem (s : Nat) (d l : String) (v : Bool) (m : Msg)
    (hm : m ∈ (classifyStatus s d l v).stdout) : v = true ∧ m = Msg.success d l := by
  cases v <;> unfold classifyStatus at hm <;> split_ifs at hm <;> simp_all

lemma update_stdout_mem (o : OpenResult) (d l : String) (v : Bool) (m : Msg)
    (hm : m ∈ (update o d l v).stdout) : v = true ∧ m = Msg.success d l := by
  cases o with
  | response s => exact classifyStatus_stdout_mem s d l v m hm
  | httpError c => exact classifyStatus_stdout_mem c d l v m hm
  | otherError e => simp [update] at hm

lemma classifyStatus_stderr_no_success (s : Nat) (d l : String) (v : Bool) (m : Msg)
    (hm : m ∈ (classifyStatus s d l v).stderr) : ∀ d' l', m ≠ Msg.success d' l' := by
  unfold classifyStatus at hm
  split_ifs at hm <;> simp_all

lemma update_stderr_no_success (o : OpenResult) (d l : String) (v : Bool) (m : Msg)
    (hm : m ∈ (update o d l v).stderr) : ∀ d' l', m ≠ Msg.success d' l' := by
  cases o with
  | response s => exact classifyStatus_stderr_no_success s d l v m hm
  | httpError c => exact classifyStatus_stderr_no_success c d l v m hm
  | otherError e => simp [update] at hm; simp [hm]

lemma classifyStatus_OK_stderr (s : Nat) (d l : String) (v : Bool)
    (h : (classifyStatus s d l v).result = _Result.OK) : (classifyStatus s d l v).stderr = [] := by
  unfold classifyStatus at h ⊢
  split_ifs at h ⊢ <;> simp_all

lemma update_OK_stderr (o : OpenResult) (d l : String) (v : Bool)
    (h : (update o d l v).result = _Result.OK) : (update o d l v).stderr = [] := by
  cases o with
  | response s => exact classifyStatus_OK_stderr s d l v h
  | httpError c => exact classifyStatus_OK_stderr c d l v h
  | otherError e => simp [update] at h

lemma update_result_CONN_iff (o : OpenResult) (d l : String) (v : Bool) :
    (update o d l v).result = _Result.CONN_ERROR ↔ ∃ e, o = OpenResult.otherError e := by
  cases o with
  | response s =>
    simp only [update]
    unfold classifyStatus
    split_ifs <;> simp
  | httpError c =>
    simp only [update]
    unfold classifyStatus
    split_ifs <;> simp
  | otherError e => simp [update]

lemma classifyStatus_result_domain_irrel (s : Nat) (d d' l : String) (v : Bool) :
    (classifyStatus s d l v).result = (classifyStatus s d' l v).result := by
  unfold classifyStatus
  split_ifs <;> rfl

lemma update_result_domain_irrel (o : OpenResult) (d d' l : String) (v : Bool) :
    (update o d l v).result = (update o d' l v).result := by
  cases o with
  | response s => exact classifyStatus_result_domain_irrel s d d' l v
  | httpError c => exact classifyStatus_result_domain_irrel c d d' l v
  | otherError e => rfl

lemma connect_nil (fam : AddressFamily) (env : ConnectEnv)
    (hg : getaddrinfo env.table fam = []) :
    ForcedAF.connect fam env =
      (Except.error ConnectFault.resolutionFailed, SockState.notCreated) := by
  unfold ForcedAF.connect
  rw [hg]

lemma connect_cons (fam : AddressFamily) (env : ConnectEnv) (a : AddrInfo)
    (rest : List AddrInfo) (hg : getaddrinfo env.table fam = a :: rest) :
    ForcedAF.connect fam env =
      (if env.connectFails then
        (Except.error (ConnectFault.socketError a.sa), SockState.closedSock)
      else if env.tunnelHost then
        if env.tunnelFails then
          (Except.error (ConnectFault.tunnelError "Tunnel connection failed"),
            SockState.closedSock)
        else if env.tlsFails then
          (Except.error (ConnectFault.tlsError "TLS handshake failed"), SockState.closedSock)
        else
          (Except.ok a, SockState.openSock)
      else if env.tlsFails then
        (Except.error (ConnectFault.tlsError "TLS handshake failed"), SockState.closedSock)
      else
        (Except.ok a, SockState.openSock)) := by
  unfold ForcedAF.connect
  rw [hg]

lemma mainLoop_urls (net : String → OpenResult) (verbose : Bool) (entries : List Entry) :
    (mainLoop net verbose entries).urls = runUrls net verbose entries := by
  rw [mainLoop_spec]

lemma mainLoop_results (net : String → OpenResult) (verbose : Bool) (entries : List Entry) :
    (mainLoop net verbose entries).results = runResults net verbose entries := by
  rw [mainLoop_spec]

lemma mainLoop_stdout (net : String → OpenResult) (verbose : Bool) (entries : List Entry) :
    (mainLoop net verbose entries).stdout = runStdout net verbose entries := by
  rw [mainLoop_spec]

lemma mainLoop_stderr (net : String → OpenResult) (verbose : Bool) (entries : List Entry) :
    (mainLoop net verbose entries).stderr = runStderr net verbose entries := by
  rw [mainLoop_spec]

lemma attemptFor_urls (net : String → OpenResult) (verbose : Bool) (d l : String)
    (u : Option String) :
    (attemptFor net verbose d l u).urls =
      (match u with
       | none => []
       | some s => if s.isEmpty then [] else [s]) := by
  cases u with
  | none => rfl
  | some s =>
    by_cases hs : s.isEmpty <;> simp [attemptFor, hs]

lemma processEntry_urls (net : String → OpenResult) (verbose : Bool) (e : Entry) :
    (processEntry net verbose e).urls = entryUrls e := by
  simp [processEntry, entryUrls, attemptFor_urls]

lemma entryUrls_length (e : Entry) :
    (entryUrls e).length =
      (if truthy e.update_url then 1 else 0) + (if truthy e.update_url_v6 then 1 else 0) := by
  unfold entryUrls truthy
  cases e.update_url with
  | none =>
    cases e.update_url_v6 with
    | none => simp
    | some s6 => by_cases h6 : s6.isEmpty <;> simp [h6]
  | some s4 =>
    cases e.update_url_v6 with
    | none => by_cases h4 : s4.isEmpty <;> simp [h4]
    | some s6 =>
      by_cases h4 : s4.isEmpty <;> by_cases h6 : s6.isEmpty <;> simp [h4, h6]

lemma flatMap_entryUrls_length (entries : List Entry) :
    (entries.flatMap entryUrls).length = countTruthyUrls entries := by
  induction entries with
  | nil => simp [countTruthyUrls]
  | cons e es ih =>
    rw [List.flatMap_cons, List.length_append, entryUrls_length, ih]
    simp [countTruthyUrls]

lemma runUrls_eq_flatMap (net : String → OpenResult) (verbose : Bool) (entries : List Entry) :
    runUrls net verbose entries = entries.flatMap entryUrls := by
  unfold runUrls
  induction entries with
  | nil => rfl
  | cons e es ih => simp [List.flatMap_cons, ih, processEntry_urls]

lemma attemptFor_lengths (net : String → OpenResult) (verbose : Bool) (d l : String)
    (u : Option String) :
    (attemptFor net verbose d l u).results.length = (attemptFor net verbose d l u).urls.length := by
  cases u with
  | none => rfl
  | some s => by_cases hs : s.isEmpty <;> simp [attemptFor, hs]

lemma processEntry_lengths (net : String → OpenResult) (verbose : Bool) (e : Entry) :
    (processEntry net verbose e).results.length = (processEntry net verbose e).urls.length := by
  simp [processEntry, attemptFor_lengths]

lemma runResults_length (net : String → OpenResult) (verbose : Bool) (entries : List Entry) :
    (runResults net verbose entries).length = (runUrls net verbose entries).length := by
  unfold runResults runUrls
  induction entries with
  | nil => rfl
  | cons e es ih => simp [List.flatMap_cons, ih, processEntry_lengths]

/-- C1: the final exit status follows the priority order: any `CONN_ERROR`
outcome exits with the connection-error status (5); otherwise strict mode
with any `HTTP_ERROR` outcome exits with the update-failed status (4);
otherwise the run exits 0 regardless of how many `HTTP_ERROR` outcomes
occurred in non-strict mode. -/
theorem exit_status_priority (net : String → OpenResult) (verbose strict : Bool)
    (entries : List Entry) :
    mainExit net verbose strict entries =
      (if _Result.CONN_ERROR ∈ (mainLoop net verbose entries).results then EX_CONNECTION_ERROR
       else if strict = true ∧ _Result.HTTP_ERROR ∈ (mainLoop net verbose entries).results then
         EX_UPDATE_FAILED
       else 0) := by
  simp only [mainExit, mainLoop_spec]
  by_cases hc : _Result.CONN_ERROR ∈ runResults net verbose entries <;>
    by_cases hh : _Result.HTTP_ERROR ∈ runResults net verbose entries <;>
      cases strict <;> simp [hc, hh]

/-- C2 counterexample: with one record whose `update_url` is present but
empty, the run performs 0 attempts while the record list has 1 non-null URL
field, so the attempt count does not equal the non-null URL field count. -/
theorem attempts_ne_nonnull_count :
    ¬ ((mainLoop (fun _ => OpenResult.response 200) false cexEntries).urls.length =
        countNonNullUrls cexEntries) := by
  decide

/-- C2 (amended): the number of update attempts equals the number of truthy
(present and non-empty) URL fields across all records; the sequence of
attempted URLs is exactly the per-record truthy URLs in record order,
independent of any attempt's outcome (it does not mention the network
behaviour `net` at all); and every attempt contributes exactly one outcome. -/
theorem attempts_count_and_independence (net : String → OpenResult) (verbose : Bool)
    (entries : List Entry) :
    (mainLoop net verbose entries).urls = entries.flatMap entryUrls ∧
    (mainLoop net verbose entries).urls.length = countTruthyUrls entries ∧
    (mainLoop net verbose entries).results.length = (mainLoop net verbose entries).urls.length := by
  refine ⟨?_, ?_, ?_⟩
  · rw [mainLoop_urls, runUrls_eq_flatMap]
  · rw [mainLoop_urls, runUrls_eq_flatMap, flatMap_entryUrls_length]
  · rw [mainLoop_results, mainLoop_urls, runResults_length]

/-- C7: a record whose URL fields are both falsy produces zero attempts,
zero outcomes, nothing on stdout, and exactly one no-URL warning naming the
domain on stderr. -/
theorem no_urls_single_warning (net : String → OpenResult) (verbose : Bool) (e : Entry)
    (h4 : truthy e.update_url = false) (h6 : truthy e.update_url_v6 = false) :
    processEntry net verbose e =
      { results := [], stdout := [],
        stderr := [Msg.noUpdateUrls (e.domain.getD "<undefined>")], urls := [] } := by
  unfold processEntry
  cases hu4 : e.update_url with
  | none =>
    cases hu6 : e.update_url_v6 with
    | none => simp [attemptFor, truthy, hu4, hu6]
    | some s6 =>
      rw [hu6] at h6
      simp only [truthy, Bool.not_eq_false'] at h6
      simp [attemptFor, truthy, hu4, hu6, h6]
  | some s4 =>
    rw [hu4] at h4
    simp only [truthy, Bool.not_eq_false'] at h4
    cases hu6 : e.update_url_v6 with
    | none => simp [attemptFor, truthy, hu4, hu6, h4]
    | some s6 =>
      rw [hu6] at h6
      simp only [truthy, Bool.not_eq_false'] at h6
      simp [attemptFor, truthy, hu4, hu6, h4, h6]

/-- C7 witness: a concrete record with no `update_url` and an empty
`update_url_v6` yields exactly one warning and nothing else. -/
theorem no_urls_single_warning_witness :
    processEntry (fun _ => OpenResult.response 200) false
        { domain := some "a.ydns.eu", update_url := none, update_url_v6 := some "" } =
      { results := [], stdout := [], stderr := [Msg.noUpdateUrls "a.ydns.eu"], urls := [] } :=
  no_urls_single_warning (fun _ => OpenResult.response 200) false
    { domain := some "a.ydns.eu", update_url := none, update_url_v6 := some "" }
    (by decide) (by decide)

/-- C9: an empty-string URL field behaves exactly like an absent field: the
record is processed identically, a record whose URL fields are all empty
strings gets the single no-URL warning and zero attempts, and the run's
attempt count equals the number of non-empty URL strings. -/
theorem empty_url_like_absent (net : String → OpenResult) (verbose : Bool)
    (d u4 u6 : Option String) (entries : List Entry) :
    processEntry net verbose { domain := d, update_url := some "", update_url_v6 := u6 } =
      processEntry net verbose { domain := d, update_url := none, update_url_v6 := u6 } ∧
    processEntry net verbose { domain := d, update_url := u4, update_url_v6 := some "" } =
      processEntry net verbose { domain := d, update_url := u4, update_url_v6 := none } ∧
    processEntry net verbose { domain := d, update_url := some "", update_url_v6 := some "" } =
      { results := [], stdout := [],
        stderr := [Msg.noUpdateUrls (d.getD "<undefined>")], urls := [] } ∧
    (mainLoop net verbose entries).urls.length = countTruthyUrls entries := by
  have hE : ("" : String).isEmpty = true := rfl
  refine ⟨?_, ?_, ?_, ?_⟩
  · simp [processEntry, attemptFor, truthy, hE]
  · simp [processEntry, attemptFor, truthy, hE]
  · simp [processEntry, attemptFor, truthy, hE]
  · rw [mainLoop_urls, runUrls_eq_flatMap, flatMap_entryUrls_length]

lemma attemptFor_results_domain_irrel (net : String → OpenResult) (verbose : Bool)
    (d d' l : String) (u : Option String) :
    (attemptFor net verbose d l u).results = (attemptFor net verbose d' l u).results := by
  cases u with
  | none => rfl
  | some s =>
    by_cases hs : s.isEmpty
    · simp [attemptFor, hs]
    · simp [attemptFor, hs]
      exact update_result_domain_irrel (net s) d d' l verbose

/-- C10: a record lacking the `domain` key is processed exactly like the same
record with domain `"<undefined>"` — all messages use the placeholder — and
for any actual domain value the attempted URLs and outcomes are unchanged. -/
theorem missing_domain_placeholder (net : String → OpenResult) (verbose : Bool)
    (u4 u6 : Option String) :
    processEntry net verbose { domain := none, update_url := u4, update_url_v6 := u6 } =
      processEntry net verbose
        { domain := some "<undefined>", update_url := u4, update_url_v6 := u6 } ∧
    ∀ d : String,
      (processEntry net verbose { domain := none, update_url := u4, update_url_v6 := u6 }).urls =
        (processEntry net verbose { domain := some d, update_url := u4, update_url_v6 := u6 }).urls ∧
      (processEntry net verbose { domain := none, update_url := u4, update_url_v6 := u6 }).results =
        (processEntry net verbose
          { domain := some d, update_url := u4, update_url_v6 := u6 }).results := by
  refine ⟨rfl, fun d => ⟨?_, ?_⟩⟩
  · simp [processEntry_urls, entryUrls]
  · simp only [processEntry]
    simp [attemptFor_results_domain_irrel net verbose "<undefined>" d]

lemma update_stdout_nonverbose (o : OpenResult) (d l : String) :
    (update o d l false).stdout = [] := by
  cases o <;> simp [update, classifyStatus] <;> split_ifs <;> rfl

lemma attemptFor_stdout_nonverbose (net : String → OpenResult) (d l : String)
    (u : Option String) : (attemptFor net false d l u).stdout = [] := by
  cases u with
  | none => rfl
  | some s => by_cases hs : s.isEmpty <;> simp [attemptFor, hs, update_stdout_nonverbose]

lemma processEntry_stdout_nonverbose (net : String → OpenResult) (e : Entry) :
    (processEntry net false e).stdout = [] := by
  simp [processEntry, attemptFor_stdout_nonverbose]

lemma runStdout_nonverbose (net : String → OpenResult) (entries : List Entry) :
    runStdout net false entries = [] := by
  unfold runStdout
  induction entries with
  | nil => rfl
  | cons e es ih => simp [List.flatMap_cons, ih, processEntry_stdout_nonverbose]

lemma attemptFor_stdout_mem (net : String → OpenResult) (v : Bool) (d l : String)
    (u : Option String) (m : Msg) (hm : m ∈ (attemptFor net v d l u).stdout) :
    v = true ∧ m = Msg.success d l := by
  cases u with
  | none => simp [attemptFor] at hm
  | some s =>
    by_cases hs : s.isEmpty
    · simp [attemptFor, hs] at hm
    · simp only [attemptFor, hs, Bool.false_eq_true, if_false] at hm
      exact update_stdout_mem (net s) d l v m hm

lemma processEntry_stdout_mem (net : String → OpenResult) (v : Bool) (e : Entry) (m : Msg)
    (hm : m ∈ (processEntry net v e).stdout) :
    v = true ∧ ∃ l', m = Msg.success (e.domain.getD "<undefined>") l' := by
  simp only [processEntry, List.mem_append] at hm
  rcases hm with hm | hm
  · have h := attemptFor_stdout_mem net v _ "IPv4" e.update_url m hm
    exact ⟨h.1, "IPv4", h.2⟩
  · have h := attemptFor_stdout_mem net v _ "IPv6" e.update_url_v6 m hm
    exact ⟨h.1, "IPv6", h.2⟩

lemma attemptFor_stderr_no_success (net : String → OpenResult) (v : Bool) (d l : String)
    (u : Option String) (m : Msg) (hm : m ∈ (attemptFor net v d l u).stderr) :
    ∀ d' l', m ≠ Msg.success d' l' := by
  cases u with
  | none => simp [attemptFor] at hm
  | some s =>
    by_cases hs : s.isEmpty
    · simp [attemptFor, hs] at hm
    · simp only [attemptFor, hs, Bool.false_eq_true, if_false] at hm
      exact update_stderr_no_success (net s) d l v m hm

lemma processEntry_stderr_no_success (net : String → OpenResult) (v : Bool) (e : Entry) (m : Msg)
    (hm : m ∈ (processEntry net v e).stderr) : ∀ d' l', m ≠ Msg.success d' l' := by
  simp only [processEntry, List.mem_append] at hm
  rcases hm with (hm | hm) | hm
  · exact attemptFor_stderr_no_success net v _ "IPv4" e.update_url m hm
  · exact attemptFor_stderr_no_success net v _ "IPv6" e.update_url_v6 m hm
  · intro d' l'
    split_ifs at hm <;> simp_all

lemma attemptFor_stderr_ok (net : String → OpenResult) (v : Bool) (d l : String)
    (u : Option String)
    (hok : ∀ r ∈ (attemptFor net v d l u).results, r = _Result.OK) :
    (attemptFor net v d l u).stderr = [] := by
  cases u with
  | none => rfl
  | some s =>
    by_cases hs : s.isEmpty
    · simp [attemptFor, hs]
    · simp only [attemptFor, hs, Bool.false_eq_true, if_false] at hok ⊢
      exact update_OK_stderr (net s) d l v (hok _ (List.mem_singleton_self _))

lemma processEntry_stderr_ok (net : String → OpenResult) (v : Bool) (e : Entry)
    (hurl : truthy e.update_url = true ∨ truthy e.update_url_v6 = true)
    (hok : ∀ r ∈ (processEntry net v e).results, r = _Result.OK) :
    (processEntry net v e).stderr = [] := by
  simp only [processEntry, List.mem_append] at hok ⊢
  have h4 := attemptFor_stderr_ok net v _ "IPv4" e.update_url
    (fun r hr => hok r (Or.inl hr))
  have h6 := attemptFor_stderr_ok net v _ "IPv6" e.update_url_v6
    (fun r hr => hok r (Or.inr hr))
  have hwarn : (!truthy e.update_url && !truthy e.update_url_v6) = false := by
    rcases hurl with h | h <;> simp [h]
  simp [h4, h6, hwarn]

/-- C3: the classification of an obtained HTTP status: a status in
[200,300) yields `OK` with the success message printed only when verbose;
404 yields `HTTP_ERROR` with the invalid-URL message; 400 yields
`HTTP_ERROR` with the no-public-address message; any other status yields
`HTTP_ERROR` with the unexpected-status message. The `render` equalities pin
the exact message strings. -/
theorem status_classification (s : Nat) (d l : String) (v : Bool) :
    (200 ≤ s ∧ s < 300 →
      update (OpenResult.response s) d l v =
        { result := _Result.OK
          stdout := if v then [Msg.success d l] else []
          stderr := [] }) ∧
    (s = 404 →
      update (OpenResult.response s) d l v =
        { result := _Result.HTTP_ERROR, stdout := [], stderr := [Msg.invalid404 d l] } ∧
      (Msg.invalid404 d l).render =
        d ++ " (" ++ l ++ "): update URL is invalid (404). Check your configuration.") ∧
    (s = 400 →
      update (OpenResult.response s) d l v =
        { result := _Result.HTTP_ERROR, stdout := [], stderr := [Msg.rejected400 d l] } ∧
      (Msg.rejected400 d l).render =
        d ++ " (" ++ l ++ "): server rejected the request (400). You may not have a public "
          ++ l ++ " address.") ∧
    (¬(200 ≤ s ∧ s < 300) → s ≠ 404 → s ≠ 400 →
      update (OpenResult.response s) d l v =
        { result := _Result.HTTP_ERROR, stdout := [], stderr := [Msg.unexpectedStatus d l s] } ∧
      (Msg.unexpectedStatus d l s).render =
        d ++ " (" ++ l ++ "): unexpected HTTP status " ++ toString s ++ ".") := by
  refine ⟨?_, ?_, ?_, ?_⟩
  · intro h
    simp [update, classifyStatus, h]
  · intro h
    subst h
    exact ⟨by simp [update, classifyStatus], rfl⟩
  · intro h
    subst h
    exact ⟨by simp [update, classifyStatus], rfl⟩
  · intro h h404 h400
    exact ⟨by simp [update, classifyStatus, h, h404, h400], rfl⟩

/-- C3 witness: the four classification branches at concrete statuses 204,
404, 400 and 503. -/
theorem status_classification_witness :
    update (OpenResult.response 204) "d.ydns.eu" "IPv4" true =
      { result := _Result.OK, stdout := [Msg.success "d.ydns.eu" "IPv4"], stderr := [] } ∧
    update (OpenResult.response 404) "d.ydns.eu" "IPv4" true =
      { result := _Result.HTTP_ERROR, stdout := []
        stderr := [Msg.invalid404 "d.ydns.eu" "IPv4"] } ∧
    update (OpenResult.response 400) "d.ydns.eu" "IPv4" true =
      { result := _Result.HTTP_ERROR, stdout := []
        stderr := [Msg.rejected400 "d.ydns.eu" "IPv4"] } ∧
    update (OpenResult.response 503) "d.ydns.eu" "IPv4" true =
      { result := _Result.HTTP_ERROR, stdout := []
        stderr := [Msg.unexpectedStatus "d.ydns.eu" "IPv4" 503] } :=
  ⟨(status_classification 204 "d.ydns.eu" "IPv4" true).1 (by decide),
   ((status_classification 404 "d.ydns.eu" "IPv4" true).2.1 rfl).1,
   ((status_classification 400 "d.ydns.eu" "IPv4" true).2.2.1 rfl).1,
   ((status_classification 503 "d.ydns.eu" "IPv4" true).2.2.2 (by decide) (by decide)
      (by decide)).1⟩

/-- C4: connect resolves through the resolver answer filtered to the
requested family and stream sockets; an empty filtered answer makes the
whole attempt a `CONN_ERROR` (never a fallback), and any successful connect
used an address of the requested family and stream type from the resolver
answer. -/
theorem forced_family_no_fallback (fam : AddressFamily) (env : ConnectEnv) (s0 : Nat)
    (d l : String) (v : Bool) :
    (getaddrinfo env.table fam =
      env.table.filter (fun ai => decide (ai.family = fam ∧ ai.socktype = SockType.SOCK_STREAM))) ∧
    (getaddrinfo env.table fam = [] →
      ForcedAF.connect fam env =
        (Except.error ConnectFault.resolutionFailed, SockState.notCreated) ∧
      (update (openViaConnect fam env s0) d l v).result = _Result.CONN_ERROR) ∧
    (∀ ai, (ForcedAF.connect fam env).1 = Except.ok ai →
      ai ∈ env.table ∧ ai.family = fam ∧ ai.socktype = SockType.SOCK_STREAM) := by
  refine ⟨rfl, ?_, ?_⟩
  · intro h
    have hc : ForcedAF.connect fam env =
        (Except.error ConnectFault.resolutionFailed, SockState.notCreated) := by
      unfold ForcedAF.connect
      rw [h]
    refine ⟨hc, ?_⟩
    simp [openViaConnect, hc, update]
  · intro ai hai
    have hmem : ai ∈ getaddrinfo env.table fam := by
      unfold ForcedAF.connect at hai
      cases hg : getaddrinfo env.table fam with
      | nil => rw [hg] at hai; simp at hai
      | cons a rest =>
        rw [hg] at hai
        split_ifs at hai <;> simp_all
    rw [getaddrinfo, List.mem_filter] at hmem
    have hp := of_decide_eq_true hmem.2
    exact ⟨hmem.1, hp.1, hp.2⟩

/-- C4 witness: forcing IPv6 against a resolver answer with only an IPv4
result raises the resolution fault before any socket exists, and the attempt
ends as `CONN_ERROR`. -/
theorem forced_family_no_fallback_witness :
    ForcedAF.connect AddressFamily.AF_INET6 envOnlyV4 =
      (Except.error ConnectFault.resolutionFailed, SockState.notCreated) ∧
    (update (openViaConnect AddressFamily.AF_INET6 envOnlyV4 200) "d.ydns.eu" "IPv6"
        false).result = _Result.CONN_ERROR :=
  (forced_family_no_fallback AddressFamily.AF_INET6 envOnlyV4 200 "d.ydns.eu" "IPv6"
    false).2.1 (by decide)

/-- C5: an `HTTPError` raised for a 4xx/5xx response is caught and its code
classified exactly like a status read from a response, so an attempt is
`CONN_ERROR` exactly when the exception carried no HTTP status; any attempt
that obtained a status is never `CONN_ERROR`. -/
theorem status_never_conn_error (o : OpenResult) (c : Nat) (d l : String) (v : Bool) :
    update (OpenResult.httpError c) d l v = update (OpenResult.response c) d l v ∧
    ((update o d l v).result = _Result.CONN_ERROR ↔ ∃ e, o = OpenResult.otherError e) ∧
    (∀ s, o = OpenResult.response s ∨ o = OpenResult.httpError s →
      (update o d l v).result ≠ _Result.CONN_ERROR) := by
  refine ⟨rfl, update_result_CONN_iff o d l v, ?_⟩
  intro s hs hcontra
  rw [update_result_CONN_iff o d l v] at hcontra
  obtain ⟨e, he⟩ := hcontra
  rcases hs with hs | hs <;> subst hs <;> simp at he

/-- C5 witness: a 500 response raised as `HTTPError` is classified like a
read 500 status, and is not a connection error. -/
theorem status_never_conn_error_witness :
    update (OpenResult.httpError 500) "d.ydns.eu" "IPv4" false =
      update (OpenResult.response 500) "d.ydns.eu" "IPv4" false ∧
    (update (OpenResult.httpError 500) "d.ydns.eu" "IPv4" false).result ≠
      _Result.CONN_ERROR :=
  ⟨(status_never_conn_error (OpenResult.httpError 500) 500 "d.ydns.eu" "IPv4" false).1,
   (status_never_conn_error (OpenResult.httpError 500) 500 "d.ydns.eu" "IPv4" false).2.2
     500 (Or.inr rfl)⟩

/-- C6: every fault of `connect` raised after the raw socket exists — socket
connect failure (closed by the `except` clause of the source), tunnel
handshake failure (the tunnel helper closes the assigned socket before
raising), TLS negotiation failure (the TLS layer closes the descriptor
before raising) — leaves the socket closed when the fault propagates. -/
theorem socket_closed_on_failure (fam : AddressFamily) (env : ConnectEnv) (f : ConnectFault)
    (herr : (ForcedAF.connect fam env).1 = Except.error f)
    (hpost : f ≠ ConnectFault.resolutionFailed) :
    (ForcedAF.connect fam env).2 = SockState.closedSock := by
  cases hg : getaddrinfo env.table fam with
  | nil =>
    rw [connect_nil fam env hg] at herr
    simp at herr
    exact absurd herr.symm hpost
  | cons a rest =>
    rw [connect_cons fam env a rest hg] at herr ⊢
    split_ifs at herr ⊢ <;> simp_all

/-- C6 witness: a failing socket connect leaves the socket closed. -/
theorem socket_closed_on_failure_witness :
    (ForcedAF.connect AddressFamily.AF_INET envConnectFail).2 = SockState.closedSock :=
  socket_closed_on_failure AddressFamily.AF_INET envConnectFail
    (ConnectFault.socketError "93.184.216.34") rfl (by decide)

/-- C8: every stdout message of a run is a per-attempt success confirmation
and stdout is empty when not verbose; no stderr message is a success
confirmation (they are the failure and warning diagnostics); and a
non-verbose run in which every attempt succeeded and every record had a
truthy URL writes nothing to either stream. -/
theorem stream_discipline (net : String → OpenResult) (verbose : Bool) (entries : List Entry) :
    (∀ m ∈ (mainLoop net verbose entries).stdout, ∃ d l, m = Msg.success d l) ∧
    (verbose = false → (mainLoop net verbose entries).stdout = []) ∧
    (∀ m ∈ (mainLoop net verbose entries).stderr, ∀ d l, m ≠ Msg.success d l) ∧
    (verbose = false →
      (∀ r ∈ (mainLoop net verbose entries).results, r = _Result.OK) →
      (∀ e ∈ entries, truthy e.update_url = true ∨ truthy e.update_url_v6 = true) →
      (mainLoop net verbose entries).stdout = [] ∧
        (mainLoop net verbose entries).stderr = []) := by
  refine ⟨?_, ?_, ?_, ?_⟩
  · intro m hm
    rw [mainLoop_stdout] at hm
    rw [runStdout, List.mem_flatMap] at hm
    obtain ⟨e, _, hme⟩ := hm
    obtain ⟨_, l', hl⟩ := processEntry_stdout_mem net verbose e m hme
    exact ⟨_, l', hl⟩
  · intro hv
    subst hv
    rw [mainLoop_stdout, runStdout_nonverbose]
  · intro m hm
    rw [mainLoop_stderr] at hm
    rw [runStderr, List.mem_flatMap] at hm
    obtain ⟨e, _, hme⟩ := hm
    exact processEntry_stderr_no_success net verbose e m hme
  · intro hv hok hurl
    subst hv
    refine ⟨by rw [mainLoop_stdout, runStdout_nonverbose], ?_⟩
    rw [mainLoop_stderr]
    rw [runStderr, List.flatMap_eq_nil_iff]
    intro e he
    refine processEntry_stderr_ok net false e (hurl e he) ?_
    intro r hr
    refine hok r ?_
    rw [mainLoop_results]
    rw [runResults, List.mem_flatMap]
    exact ⟨e, he, hr⟩

/-- C8 witness: a non-verbose fully successful run prints nothing. -/
theorem stream_discipline_witness :
    (mainLoop (fun _ => OpenResult.response 200) false entriesOneOk).stdout = [] ∧
    (mainLoop (fun _ => OpenResult.response 200) false entriesOneOk).stderr = [] :=
  (stream_discipline (fun _ => OpenResult.response 200) false entriesOneOk).2.2.2 rfl
    (by decide) (by decide)

end YdnsPy
